import Mathlib

set_option autoImplicit false

/-
Shallow embedding of the newsletter-delivery subsystem of the zero2prod
web application: the idempotency store (src/idempotency/persistence.rs),
the admin publish handler (src/routes/admin/newsletters/post.rs), the
issue-delivery worker (src/issue_delivery_worker.rs) and the outbound
email client (src/email_client.rs).

The relational store is modelled as lists of rows, one list per table.
A sqlx transaction is modelled as the snapshot of the store it operates
on; committing a transaction replaces the global store by the
transaction's state.  Fallible Rust code returning `Result<_, E>` is
modelled with `Except Failure _`; a Rust panic (e.g. `Option::unwrap` on
`None`) is a distinct `Failure.rustPanic` outcome, because a panic does
not return an `Err` value to the caller.

External collaborators are parameters of the model: the `validator`
crate's `validate_email` is an arbitrary `String → Bool`, and the
outcome of the outbound mailer call is an arbitrary function of the
call's arguments.
-/

namespace Zero2Prod

/-- Byte strings (header values, response bodies) as lists of byte values. -/
abbrev Bytes := List Nat

/-- Bytes of an ASCII string, used for header values built from `&str`. -/
def strBytes (s : String) : Bytes := s.toList.map Char.toNat

/-- Embedding of `HeaderPairRecord` from src/idempotency/persistence.rs:
a header name together with its raw value bytes. -/
structure HeaderPairRecord where
  name : String
  value : Bytes
deriving Repr, DecidableEq

/-- An actix `HttpResponse` reduced to the data the idempotency store
persists: status code, ordered header list (one entry per value, so
multi-value headers are a run of entries with the same name), body bytes. -/
structure HttpResponse where
  status : Nat
  headers : List HeaderPairRecord
  body : Bytes
deriving Repr, DecidableEq

/-- A row of the `idempotency` table: key columns plus the three nullable
response columns that are `NULL` on the placeholder row and filled in by
`save_response`. -/
structure IdempotencyRow where
  user_id : Nat
  idempotency_key : String
  response_status_code : Option Int
  response_headers : Option (List HeaderPairRecord)
  response_body : Option Bytes
deriving Repr, DecidableEq

/-- A row of the `newsletter_issues` table. -/
structure NewsletterIssueRow where
  newsletter_issue_id : Nat
  title : String
  text_content : String
  html_content : String
deriving Repr, DecidableEq

/-- A row of the `issue_delivery_queue` table. -/
structure QueueRow where
  newsletter_issue_id : Nat
  subscriber_email : String
deriving Repr, DecidableEq

/-- A row of the `subscriptions` table, reduced to the columns the publish
path reads. -/
structure SubscriptionRow where
  email : String
  status : String
deriving Repr, DecidableEq

/-- The relational store: one list of rows per table touched by the
delivery pipeline. -/
structure Store where
  idempotency : List IdempotencyRow
  newsletter_issues : List NewsletterIssueRow
  issue_delivery_queue : List QueueRow
  subscriptions : List SubscriptionRow
deriving Repr, DecidableEq

/-- A sqlx `Transaction`: the snapshot of the store the transaction sees
and mutates.  Dropping the transaction discards this state (rollback);
`commit` makes it the new global store. -/
structure Txn where
  state : Store
deriving Repr, DecidableEq

/-- Failure outcomes of the Rust code: `err` models returning
`Err(anyhow::Error)` with the given message, `rustPanic` models a Rust
panic (such as `Option::unwrap` on `None`), which unwinds instead of
returning an error value. -/
inductive Failure where
  | err (msg : String)
  | rustPanic (msg : String)
deriving Repr, DecidableEq

/-- Look up the `idempotency` row keyed by `(user_id, idempotency_key)`:
the table's unique key, used both by the `ON CONFLICT` clause of
`try_processing` and by the `WHERE` clauses of `get_saved_response` and
`save_response`. -/
def findIdempotencyRow (rows : List IdempotencyRow) (user_id : Nat)
    (key : String) : Option IdempotencyRow :=
  rows.find? (fun r => r.user_id == user_id && r.idempotency_key == key)

/-- Cast `status.as_u16() as i16` from src/idempotency/persistence.rs line 57:
a `u16` reinterpreted as a signed 16-bit value. -/
def u16AsI16 (u : Nat) : Int :=
  if u % 65536 < 32768 then ((u % 65536 : Nat) : Int)
  else ((u % 65536 : Nat) : Int) - 65536

/-- Embedding of `i16::try_into::<u16>()`: fails on negative values. -/
def i16TryIntoU16 (z : Int) : Except Failure Nat :=
  if z < 0 then .error (.err "out of range integral type conversion attempted")
  else .ok z.toNat

/-- Embedding of `actix_web::http::StatusCode::from_u16`, which accepts
exactly the range 100..=999. -/
def statusCodeFromU16 (u : Nat) : Except Failure Nat :=
  if 100 ≤ u ∧ u < 1000 then .ok u
  else .error (.err "invalid status code")

/-- Embedding of `get_saved_response` (src/idempotency/persistence.rs,
lines 14-45).  It fetches the optional row for `(user_id, key)` from the
pool; on a row it `unwrap`s the three response columns — a Rust panic
when they are still `NULL` — converts the stored `i16` status back to a
`u16` `StatusCode`, and rebuilds the response by appending every stored
header pair in order onto the builder before attaching the body. -/
def get_saved_response (pool : Store) (key : String) (user_id : Nat) :
    Except Failure (Option HttpResponse) :=
  match findIdempotencyRow pool.idempotency user_id key with
  | none => .ok none
  | some row =>
    match row.response_status_code with
    | none => .error (.rustPanic "called Option::unwrap on a None value")
    | some sc =>
      match i16TryIntoU16 sc with
      | .error e => .error e
      | .ok u =>
        match statusCodeFromU16 u with
        | .error e => .error e
        | .ok status =>
          match row.response_headers with
          | none => .error (.rustPanic "called Option::unwrap on a None value")
          | some hs =>
            match row.response_body with
            | none => .error (.rustPanic "called Option::unwrap on a None value")
            | some body => .ok (some ⟨status, hs, body⟩)

/-- The `UPDATE idempotency SET response_status_code = $3, response_headers
= $4, response_body = $5 WHERE user_id = $1 AND idempotency_key = $2`
statement of `save_response`, applied to the rows of the table. -/
def updateIdempotencyRows (rows : List IdempotencyRow) (user_id : Nat)
    (key : String) (sc : Int) (hs : List HeaderPairRecord) (body : Bytes) :
    List IdempotencyRow :=
  rows.map (fun r =>
    if r.user_id == user_id && r.idempotency_key == key then
      { r with
        response_status_code := some sc
        response_headers := some hs
        response_body := some body }
    else r)

/-- The store committed by `save_response`: the transaction's state with
the response columns of the `(user_id, key)` idempotency row filled in. -/
def saveCommit (txn : Txn) (key : String) (user_id : Nat)
    (resp : HttpResponse) : Store :=
  { txn.state with
    idempotency := updateIdempotencyRows txn.state.idempotency user_id key
      (u16AsI16 resp.status) resp.headers resp.body }

/-- Embedding of `save_response` (src/idempotency/persistence.rs, lines
47-89).  The response is split into parts; the body is collected to
bytes, the status is stored as an `i16`, and the headers are copied pair
by pair from the header map's iterator (which yields every value of a
multi-value header).  The `UPDATE` runs inside the given transaction,
the transaction is committed, and the head re-assembled with the
collected body is returned to the caller. -/
def save_response (txn : Txn) (key : String) (user_id : Nat)
    (resp : HttpResponse) : Except Failure (HttpResponse × Store) :=
  .ok (resp, saveCommit txn key user_id resp)

/-- Embedding of `NextAction` (src/idempotency/persistence.rs, lines
91-94). -/
inductive NextAction where
  | startProcessing (txn : Txn)
  | returnSavedResponse (resp : HttpResponse)
deriving Repr, DecidableEq

/-- The transaction state after the placeholder `INSERT INTO idempotency
(user_id, idempotency_key, created_at) VALUES ($1, $2, now())` of
`try_processing` succeeds. -/
def insertPlaceholder (pool : Store) (user_id : Nat) (key : String) : Store :=
  { pool with
    idempotency := pool.idempotency ++ [⟨user_id, key, none, none, none⟩] }

/-- Embedding of `try_processing` (src/idempotency/persistence.rs, lines
96-124).  A fresh transaction runs the placeholder insert with `ON
CONFLICT DO NOTHING`; `rows_affected > 0` (no prior row for the unique
key `(user_id, idempotency_key)`) yields `StartProcessing` with the open
transaction, otherwise the saved response is fetched from the pool and
returned, a missing row being the explicit
`We expected a saved response but didn't find it` error. -/
def try_processing (pool : Store) (key : String) (user_id : Nat) :
    Except Failure NextAction :=
  match findIdempotencyRow pool.idempotency user_id key with
  | none => .ok (.startProcessing ⟨insertPlaceholder pool user_id key⟩)
  | some _ =>
    match get_saved_response pool key user_id with
    | .error e => .error e
    | .ok none => .error (.err "We expected a saved response but found none")
    | .ok (some r) => .ok (.returnSavedResponse r)

/-- Behaviour of the outbound mailer as seen by the code: whether the
`send_email` call for a given (recipient, subject, html, text) succeeds.
This is the external collaborator the handler and the worker call. -/
abbrev MailerBehavior := String → String → String → String → Bool

/-- Outcome of the `reqwest` round trip inside `EmailClient::send_email`:
either the transport itself fails (`send().await?`), or a final HTTP
response with the given status code reaches `error_for_status`. -/
inductive TransportOutcome where
  | transportFail
  | response (status : Nat)
deriving Repr, DecidableEq

/-- Embedding of `reqwest::Response::error_for_status`, which turns the
response into an error exactly when the status is a client error
(400..=499) or a server error (500..=599). -/
def error_for_status (status : Nat) : Bool :=
  400 ≤ status && status ≤ 599

/-- Embedding of `EmailClient::send_email` (src/email_client.rs, lines
29-71).  The request built from the arguments (Authorization header plus
the personalizations/from/subject/content JSON body) does not influence
which results count as failure, so the embedding keeps the arguments and
decides the result from the transport outcome: a transport failure is
propagated by `?`, and `error_for_status()?` rejects 4xx/5xx statuses. -/
def send_email (transport : TransportOutcome)
    (_recipient _subject _html_content _text_content : String) :
    Except String Unit :=
  match transport with
  | .transportFail => .error "transport error"
  | .response status =>
    if error_for_status status then .error "HTTP status error" else .ok ()

/-- Embedding of `NewsletterForm` (src/routes/admin/newsletters/post.rs,
lines 14-20). -/
structure NewsletterForm where
  title : String
  html : String
  text : String
  idempotency_key : String
deriving Repr, DecidableEq

/-- Errors a handler can produce for actix: `e400` and `e500` wrap an
error message with the respective status class (src/utils.rs), and
`rustPanic` records that the handler panicked instead of returning. -/
inductive HandlerError where
  | e400 (msg : String)
  | e500 (msg : String)
  | rustPanic (msg : String)
deriving Repr, DecidableEq

/-- Modelled from the spec: the `IdempotencyKey` conversion
(`idempotency_key.try_into().map_err(e400)?`) lives in
src/idempotency/mod.rs, which is absent from the sources.  The spec says
the key is a caller-supplied opaque string, rejected with a 400-class
error if malformed, e.g. empty. -/
def idempotencyKeyParse (s : String) : Option String :=
  if s.isEmpty then none else some s

/-- Embedding of `utils::see_other`: a 303 See Other response carrying a
single `location` header and an empty body. -/
def see_other (location : String) : HttpResponse :=
  ⟨303, [⟨"location", strBytes location⟩], []⟩

/-- Embedding of `get_confirmed_subscribers` (src/routes/admin/newsletters/
post.rs, lines 78-98): every `subscriptions` row with status
`confirmed`, each email wrapped in `Ok` when `SubscriberEmail::parse`
accepts it and in `Err` otherwise.  The `validator` crate's
`validate_email` is the `validEmail` parameter. -/
def get_confirmed_subscribers (validEmail : String → Bool) (pool : Store) :
    List (Except String String) :=
  (pool.subscriptions.filter (fun r => r.status == "confirmed")).map
    (fun r =>
      if validEmail r.email then .ok r.email else .error "not a valid email")

/-- The `for subscriber in subscribers` loop of `publish_newsletter`
(src/routes/admin/newsletters/post.rs, lines 50-67): an `Ok` subscriber
gets a mailer call whose failure aborts the whole handler with that
recipient's address in the error context; an `Err` subscriber is logged
with a warning and skipped.  Returns the mailer calls made and the
loop's outcome. -/
def sendLoop (mailerOk : MailerBehavior) (title html text : String) :
    List (Except String String) → List String × Except String Unit
  | [] => ([], .ok ())
  | (.ok email) :: rest =>
    if mailerOk email title html text then
      let tail := sendLoop mailerOk title html text rest
      (email :: tail.1, tail.2)
    else ([email], .error email)
  | (.error _) :: rest => sendLoop mailerOk title html text rest

/-- Decidable equality for `Except`, used by the derived equality of the
result records below. -/
instance exceptDecEq {ε α : Type} [DecidableEq ε] [DecidableEq α] :
    DecidableEq (Except ε α) := fun a b =>
  match a, b with
  | .ok x, .ok y =>
    if h : x = y then .isTrue (by rw [h])
    else .isFalse (by intro c; cases c; exact h rfl)
  | .error x, .error y =>
    if h : x = y then .isTrue (by rw [h])
    else .isFalse (by intro c; cases c; exact h rfl)
  | .ok _, .error _ => .isFalse (by intro c; cases c)
  | .error _, .ok _ => .isFalse (by intro c; cases c)

/-- Result of one `publish_newsletter` call: the HTTP-level outcome, the
store after the call (unchanged unless a transaction committed), and the
recipients for which the handler itself invoked the mailer. -/
structure PublishResult where
  response : Except HandlerError HttpResponse
  store : Store
  sends : List String
deriving Repr, DecidableEq

/-- Embedding of `publish_newsletter` (src/routes/admin/newsletters/
post.rs, lines 29-72): parse the idempotency key (400 on failure),
resolve idempotency — a saved response short-circuits —, then on the
`StartProcessing` branch query the confirmed subscribers from the pool
and send the newsletter to each of them inline, aborting with a 500 as
soon as one mailer call fails; finally capture a `see_other` redirect
via `save_response`, committing the transaction, and return it. -/
def publish_newsletter (validEmail : String → Bool) (mailerOk : MailerBehavior)
    (pool : Store) (user_id : Nat) (form : NewsletterForm) : PublishResult :=
  match idempotencyKeyParse form.idempotency_key with
  | none => ⟨.error (.e400 "The idempotency key cannot be empty"), pool, []⟩
  | some key =>
    match try_processing pool key user_id with
    | .error (.err m) => ⟨.error (.e500 m), pool, []⟩
    | .error (.rustPanic m) => ⟨.error (.rustPanic m), pool, []⟩
    | .ok (.returnSavedResponse r) => ⟨.ok r, pool, []⟩
    | .ok (.startProcessing txn) =>
      match sendLoop mailerOk form.title form.html form.text
          (get_confirmed_subscribers validEmail pool) with
      | (sends, .error email) =>
        ⟨.error (.e500 ("Failed to send newsletter to " ++ email)), pool, sends⟩
      | (sends, .ok ()) =>
        match save_response txn key user_id (see_other "/admin/newsletters") with
        | .error (.err m) => ⟨.error (.e500 m), pool, sends⟩
        | .error (.rustPanic m) => ⟨.error (.rustPanic m), pool, sends⟩
        | .ok (resp, committed) => ⟨.ok resp, committed, sends⟩

/-- Embedding of `ExecutionOutcome` (src/issue_delivery_worker.rs, lines
9-12). -/
inductive ExecutionOutcome where
  | taskCompleted
  | emptyQueue
deriving Repr, DecidableEq

/-- Embedding of `dequeue_task` (src/issue_delivery_worker.rs, lines
61-86): open a transaction and run `SELECT newsletter_issue_id,
subscriber_email FROM issue_delivery_queue FOR UPDATE SKIP LOCKED LIMIT
1`.  `LIMIT 1` returns at most one row in an unspecified order, modelled
as the head of the queue list; with the row comes the open transaction
holding its lock. -/
def dequeue_task (pool : Store) : Option (Txn × Nat × String) :=
  match pool.issue_delivery_queue with
  | [] => none
  | row :: _ => some (⟨pool⟩, row.newsletter_issue_id, row.subscriber_email)

/-- Embedding of `delete_task` (src/issue_delivery_worker.rs, lines
89-108): `DELETE FROM issue_delivery_queue WHERE newsletter_issue_id =
$1 AND subscriber_email = $2` inside the claiming transaction, followed
by `commit`; the committed store is returned. -/
def delete_task (txn : Txn) (issue_id : Nat) (email : String) : Store :=
  { txn.state with
    issue_delivery_queue := txn.state.issue_delivery_queue.filter
      (fun r => !(r.newsletter_issue_id == issue_id && r.subscriber_email == email)) }

/-- Embedding of `get_issue` (src/issue_delivery_worker.rs, lines
116-131): `fetch_one` on the `newsletter_issues` row with the given id,
an error when no such row exists. -/
def get_issue (pool : Store) (issue_id : Nat) :
    Except Failure NewsletterIssueRow :=
  match pool.newsletter_issues.find?
      (fun r => r.newsletter_issue_id == issue_id) with
  | some issue => .ok issue
  | none =>
    .error (.err "no rows returned by a query that expected to return at least one row")

/-- Error log lines of the worker loop body: `deliveryFailure` tags the
`tracing::error!` call of the mailer-failure branch ("Failed to deliver
issue to a confirmed subscriber. Skipping", with the cause chain,
src/issue_delivery_worker.rs lines 38-42), `invalidStoredContact` tags
the one of the validation-failure branch (lines 46-50); both carry the
full cause chain of the logged error. -/
inductive LogLine where
  | deliveryFailure
  | invalidStoredContact
deriving Repr, DecidableEq

/-- Result of one `try_execute_task` call: its `Result` value, the store
after the call, the mailer calls made, and the error log lines emitted. -/
structure WorkerResult where
  outcome : Except Failure ExecutionOutcome
  store : Store
  sends : List String
  logs : List LogLine
deriving Repr, DecidableEq

/-- Embedding of `try_execute_task` (src/issue_delivery_worker.rs, lines
15-56): an empty dequeue yields `EmptyQueue`; otherwise the stored email
is parsed — on success the issue is looked up (an error there aborts the
iteration with the claiming transaction dropped, i.e. rolled back) and
the mailer is called, its failure only logged; on a parse failure the
validation error is logged with no issue lookup and no mailer call.  In
the two logged branches `delete_task` removes the claimed row and
commits, and the call returns `TaskCompleted`. -/
def try_execute_task (validEmail : String → Bool) (mailerOk : MailerBehavior)
    (pool : Store) : WorkerResult :=
  match dequeue_task pool with
  | none => ⟨.ok .emptyQueue, pool, [], []⟩
  | some (txn, issue_id, email) =>
    if validEmail email then
      match get_issue pool issue_id with
      | .error e => ⟨.error e, pool, [], []⟩
      | .ok issue =>
        ⟨.ok .taskCompleted, delete_task txn issue_id email, [email],
          if mailerOk email issue.title issue.html_content issue.text_content
          then [] else [.deliveryFailure]⟩
    else
      ⟨.ok .taskCompleted, delete_task txn issue_id email, [],
        [.invalidStoredContact]⟩

/-- The store after one worker iteration. -/
def workerStep (validEmail : String → Bool) (mailerOk : MailerBehavior)
    (pool : Store) : Store :=
  (try_execute_task validEmail mailerOk pool).store

/-- The store after `n` worker iterations (the `worker_loop` of
src/issue_delivery_worker.rs keeps calling `try_execute_task` whatever
the previous outcome was). -/
def workerSteps (validEmail : String → Bool) (mailerOk : MailerBehavior) :
    Nat → Store → Store
  | 0, pool => pool
  | n + 1, pool => workerSteps validEmail mailerOk n (workerStep validEmail mailerOk pool)

/-- A row for the pair `(issue_id, email)` is present in the delivery
queue of the store. -/
def pairInQueue (s : Store) (issue_id : Nat) (email : String) : Prop :=
  ∃ r ∈ s.issue_delivery_queue,
    r.newsletter_issue_id = issue_id ∧ r.subscriber_email = email

/-- Whether an `Except` value is an error. -/
def exceptIsError {ε α : Type} : Except ε α → Bool
  | .error _ => true
  | .ok _ => false

/-- Whether a fallible computation returned `Err(anyhow::Error)` to its
caller (as opposed to succeeding or panicking). -/
def isErrReturn {α : Type} : Except Failure α → Bool
  | .error (.err _) => true
  | _ => false

/-- Whether a fallible computation panicked instead of returning. -/
def isPanicked {α : Type} : Except Failure α → Bool
  | .error (.rustPanic _) => true
  | _ => false

/-- Fixture: an entirely empty store. -/
def emptyPool : Store := ⟨[], [], [], []⟩

/-- Fixture: a newsletter issue row. -/
def sampleIssue : NewsletterIssueRow := ⟨1, "T", "plain", "html"⟩

/-- Fixture: a delivery-queue row for that issue. -/
def sampleQueueRow : QueueRow := ⟨1, "a@b.com"⟩

/-- Fixture: a store holding one issue and one pending queue row. -/
def samplePool : Store := ⟨[], [sampleIssue], [sampleQueueRow], []⟩

/-- Fixture: a store holding a queue row whose issue id has no
`newsletter_issues` row. -/
def noIssuePool : Store := ⟨[], [], [sampleQueueRow], []⟩

/-- Fixture: a store whose only idempotency row is a placeholder with no
captured response. -/
def pendingPool : Store := ⟨[⟨1, "key", none, none, none⟩], [], [], []⟩

/-- Fixture: a transaction holding a placeholder idempotency row for user
7 and key `pub-key`. -/
def placeholderTxn : Txn := ⟨⟨[⟨7, "pub-key", none, none, none⟩], [], [], []⟩⟩

/-- Fixture: a store with a single confirmed subscriber and nothing else. -/
def confirmedOnlyPool : Store := ⟨[], [], [], [⟨"a@b.com", "confirmed"⟩]⟩

/-- Fixture: a publish form with key `k`. -/
def sampleForm : NewsletterForm := ⟨"T", "html", "plain", "k"⟩

/-- The delivery queue of `delete_task` output is a sublist of the
transaction state's queue: deletion never adds rows. -/
theorem delete_task_queue_subset (txn : Txn) (issue_id : Nat) (email : String)
    (r : QueueRow) (hr : r ∈ (delete_task txn issue_id email).issue_delivery_queue) :
    r ∈ txn.state.issue_delivery_queue := by
  simp only [delete_task, List.mem_filter] at hr
  exact hr.1

/-- The pair deleted by `delete_task` is absent from the committed queue. -/
theorem pair_removed_by_delete_task (txn : Txn) (issue_id : Nat) (email : String) :
    ¬ pairInQueue (delete_task txn issue_id email) issue_id email := by
  rintro ⟨r, hr, h1, h2⟩
  simp only [delete_task, List.mem_filter] at hr
  have hpred := hr.2
  rw [h1, h2] at hpred
  simp at hpred

/-- One worker iteration either leaves the store unchanged (empty queue
or aborted iteration) or commits exactly one `delete_task`. -/
theorem try_execute_task_store_cases (validEmail : String → Bool)
    (mailerOk : MailerBehavior) (pool : Store) :
    (try_execute_task validEmail mailerOk pool).store = pool ∨
    ∃ issue_id email,
      (try_execute_task validEmail mailerOk pool).store =
        delete_task ⟨pool⟩ issue_id email := by
  cases hql : pool.issue_delivery_queue with
  | nil =>
    left
    simp [try_execute_task, dequeue_task, hql]
  | cons row rest =>
    by_cases hv : validEmail row.subscriber_email = true
    · cases hi : get_issue pool row.newsletter_issue_id with
      | error e =>
        left
        simp [try_execute_task, dequeue_task, hql, hv, hi]
      | ok issue =>
        right
        refine ⟨row.newsletter_issue_id, row.subscriber_email, ?_⟩
        simp [try_execute_task, dequeue_task, hql, hv, hi]
    · right
      refine ⟨row.newsletter_issue_id, row.subscriber_email, ?_⟩
      have hv2 : validEmail row.subscriber_email = false := by
        cases hb : validEmail row.subscriber_email
        · rfl
        · exact absurd hb hv
      simp [try_execute_task, dequeue_task, hql, hv2]

/-- Rows in the queue after a worker iteration were already in the queue
before it: the worker never inserts queue rows. -/
theorem workerStep_queue_subset (validEmail : String → Bool)
    (mailerOk : MailerBehavior) (pool : Store) (r : QueueRow)
    (hr : r ∈ (workerStep validEmail mailerOk pool).issue_delivery_queue) :
    r ∈ pool.issue_delivery_queue := by
  rcases try_execute_task_store_cases validEmail mailerOk pool with h | ⟨i, e, h⟩
  · rw [workerStep, h] at hr
    exact hr
  · rw [workerStep, h] at hr
    exact delete_task_queue_subset ⟨pool⟩ i e r hr

/-- A pair absent from the queue stays absent under any number of worker
iterations. -/
theorem pair_absent_workerSteps (validEmail : String → Bool)
    (mailerOk : MailerBehavior) (n : Nat) (pool : Store) (issue_id : Nat)
    (email : String) (h : ¬ pairInQueue pool issue_id email) :
    ¬ pairInQueue (workerSteps validEmail mailerOk n pool) issue_id email := by
  induction n generalizing pool with
  | zero => exact h
  | succ n ih =>
    refine ih (workerStep validEmail mailerOk pool) ?_
    rintro ⟨r, hr, h1, h2⟩
    exact h ⟨r, workerStep_queue_subset validEmail mailerOk pool r hr, h1, h2⟩

/-- C8: whenever the delivery queue is empty, a single `try_execute_task`
call returns the `EmptyQueue` outcome (not an error) and leaves the store
— idempotency, queue and issue tables — unchanged: the claiming
transaction performed no write and is discarded. -/
theorem try_execute_task_empty_queue (validEmail : String → Bool)
    (mailerOk : MailerBehavior) (pool : Store)
    (h : pool.issue_delivery_queue = []) :
    try_execute_task validEmail mailerOk pool = ⟨.ok .emptyQueue, pool, [], []⟩ := by
  simp [try_execute_task, dequeue_task, h]

/-- Witness for C8 at the empty store. -/
theorem try_execute_task_empty_queue_witness :
    emptyPool.issue_delivery_queue = [] ∧
    try_execute_task (fun _ => true) (fun _ _ _ _ => true) emptyPool =
      ⟨.ok .emptyQueue, emptyPool, [], []⟩ :=
  ⟨rfl, try_execute_task_empty_queue (fun _ => true) (fun _ _ _ _ => true) emptyPool rfl⟩

/-- C5: for a dequeued queue row whose stored address parses, a failing
mailer call is logged (`deliveryFailure`, with its cause chain) and the
row is nevertheless deleted and committed in the same iteration, the call
returning `TaskCompleted`; the pair is gone from the queue, so the failed
send is not retried. -/
theorem mailer_failure_row_still_deleted (validEmail : String → Bool)
    (mailerOk : MailerBehavior) (pool : Store) (row : QueueRow)
    (rest : List QueueRow) (issue : NewsletterIssueRow)
    (hq : pool.issue_delivery_queue = row :: rest)
    (hv : validEmail row.subscriber_email = true)
    (hi : get_issue pool row.newsletter_issue_id = .ok issue)
    (hm : mailerOk row.subscriber_email issue.title issue.html_content
      issue.text_content = false) :
    try_execute_task validEmail mailerOk pool =
      ⟨.ok .taskCompleted,
        delete_task ⟨pool⟩ row.newsletter_issue_id row.subscriber_email,
        [row.subscriber_email], [.deliveryFailure]⟩ ∧
    ¬ pairInQueue (try_execute_task validEmail mailerOk pool).store
        row.newsletter_issue_id row.subscriber_email := by
  have h1 : try_execute_task validEmail mailerOk pool =
      ⟨.ok .taskCompleted,
        delete_task ⟨pool⟩ row.newsletter_issue_id row.subscriber_email,
        [row.subscriber_email], [.deliveryFailure]⟩ := by
    simp [try_execute_task, dequeue_task, hq, hv, hi, hm]
  refine ⟨h1, ?_⟩
  rw [h1]
  exact pair_removed_by_delete_task ⟨pool⟩ row.newsletter_issue_id row.subscriber_email

/-- Witness for C5 on the one-row store with an always-failing mailer. -/
theorem mailer_failure_row_still_deleted_witness :
    samplePool.issue_delivery_queue = [sampleQueueRow] ∧
    get_issue samplePool 1 = .ok sampleIssue ∧
    (try_execute_task (fun _ => true) (fun _ _ _ _ => false) samplePool =
      ⟨.ok .taskCompleted, delete_task ⟨samplePool⟩ 1 "a@b.com",
        ["a@b.com"], [.deliveryFailure]⟩ ∧
    ¬ pairInQueue (try_execute_task (fun _ => true) (fun _ _ _ _ => false) samplePool).store
        1 "a@b.com") :=
  ⟨rfl, rfl,
    mailer_failure_row_still_deleted (fun _ => true) (fun _ _ _ _ => false)
      samplePool sampleQueueRow [] sampleIssue rfl rfl rfl rfl⟩

/-- C6: a dequeued queue row whose stored address fails validation gets no
mailer call, the failure is logged (`invalidStoredContact`), the row is
deleted and committed, and the call returns `TaskCompleted`; the final
conjunct shows the issue table is never consulted: the result is the same
for every content of `newsletter_issues`. -/
theorem invalid_email_row_skipped (validEmail : String → Bool)
    (mailerOk : MailerBehavior) (pool : Store) (row : QueueRow)
    (rest : List QueueRow)
    (hq : pool.issue_delivery_queue = row :: rest)
    (hv : validEmail row.subscriber_email = false) :
    try_execute_task validEmail mailerOk pool =
      ⟨.ok .taskCompleted,
        delete_task ⟨pool⟩ row.newsletter_issue_id row.subscriber_email,
        [], [.invalidStoredContact]⟩ ∧
    ¬ pairInQueue (try_execute_task validEmail mailerOk pool).store
        row.newsletter_issue_id row.subscriber_email ∧
    ∀ issues : List NewsletterIssueRow,
      try_execute_task validEmail mailerOk { pool with newsletter_issues := issues } =
        ⟨.ok .taskCompleted,
          delete_task ⟨{ pool with newsletter_issues := issues }⟩
            row.newsletter_issue_id row.subscriber_email,
          [], [.invalidStoredContact]⟩ := by
  have h1 : try_execute_task validEmail mailerOk pool =
      ⟨.ok .taskCompleted,
        delete_task ⟨pool⟩ row.newsletter_issue_id row.subscriber_email,
        [], [.invalidStoredContact]⟩ := by
    simp [try_execute_task, dequeue_task, hq, hv]
  refine ⟨h1, ?_, ?_⟩
  · rw [h1]
    exact pair_removed_by_delete_task ⟨pool⟩ row.newsletter_issue_id row.subscriber_email
  · intro issues
    simp [try_execute_task, dequeue_task, hq, hv]

/-- Witness for C6 on a store whose only queue row has an invalid address
(the validator rejects everything) and whose issue table is empty. -/
theorem invalid_email_row_skipped_witness :
    noIssuePool.issue_delivery_queue = [sampleQueueRow] ∧
    (try_execute_task (fun _ => false) (fun _ _ _ _ => true) noIssuePool =
      ⟨.ok .taskCompleted, delete_task ⟨noIssuePool⟩ 1 "a@b.com",
        [], [.invalidStoredContact]⟩ ∧
    ¬ pairInQueue (try_execute_task (fun _ => false) (fun _ _ _ _ => true) noIssuePool).store
        1 "a@b.com" ∧
    ∀ issues : List NewsletterIssueRow,
      try_execute_task (fun _ => false) (fun _ _ _ _ => true)
          { noIssuePool with newsletter_issues := issues } =
        ⟨.ok .taskCompleted,
          delete_task ⟨{ noIssuePool with newsletter_issues := issues }⟩ 1 "a@b.com",
          [], [.invalidStoredContact]⟩) :=
  ⟨rfl,
    invalid_email_row_skipped (fun _ => false) (fun _ _ _ _ => true)
      noIssuePool sampleQueueRow [] rfl rfl⟩

/-- C9 counterexample: the claim says any non-2xx API status yields an
error, but `error_for_status` only rejects 4xx and 5xx statuses: with a
final response of status 300 the call returns `Ok` although 300 is not a
2xx status. -/
theorem send_email_ok_at_status_300 :
    send_email (.response 300) "user@example.com" "subject" "html" "plain" = .ok () ∧
    ¬ (200 ≤ 300 ∧ 300 ≤ 299) :=
  ⟨rfl, by decide⟩

/-- C9 amended: a `send_email` call results in an error exactly when the
transport fails or the final HTTP response carries a 4xx or 5xx status
(`reqwest::Response::error_for_status`); every other status, 2xx and 3xx
alike, yields `Ok`. -/
theorem send_email_error_characterization (transport : TransportOutcome)
    (recipient subject html_content text_content : String) :
    exceptIsError (send_email transport recipient subject html_content text_content)
        = true ↔
      (transport = .transportFail ∨
        ∃ status, transport = .response status ∧ 400 ≤ status ∧ status ≤ 599) := by
  cases transport with
  | transportFail => simp [send_email, exceptIsError]
  | response status =>
    by_cases hcond : error_for_status status = true
    · simp only [send_email, hcond, if_true, exceptIsError]
      simp only [error_for_status, Bool.and_eq_true, decide_eq_true_eq] at hcond
      simp only [true_iff]
      exact Or.inr ⟨status, rfl, hcond.1, hcond.2⟩
    · simp only [send_email, hcond, if_false, exceptIsError]
      simp only [error_for_status, Bool.and_eq_true, decide_eq_true_eq] at hcond
      constructor
      · intro hfalse
        exact absurd hfalse (by simp)
      · rintro (h | ⟨s, hs, h1, h2⟩)
        · exact TransportOutcome.noConfusion h
        · cases hs
          exact absurd ⟨h1, h2⟩ hcond

/-- C7: a worker claim selects at most one queue row (the `LIMIT 1`
dequeue yields the head of the queue, with the claiming transaction);
when the iteration completes, the deletion of that row for its
`(issue_id, email)` pair was executed and committed in the very
transaction that claimed it, and the pair is never present in the queue
again under any number of further worker iterations. -/
theorem claimed_row_never_reappears (validEmail : String → Bool)
    (mailerOk : MailerBehavior) (pool : Store) (txn : Txn) (issue_id : Nat)
    (email : String)
    (hd : dequeue_task pool = some (txn, issue_id, email))
    (hc : (try_execute_task validEmail mailerOk pool).outcome = .ok .taskCompleted) :
    txn = ⟨pool⟩ ∧
    (∃ rest, pool.issue_delivery_queue = ⟨issue_id, email⟩ :: rest) ∧
    (try_execute_task validEmail mailerOk pool).store = delete_task txn issue_id email ∧
    ∀ n, ¬ pairInQueue
      (workerSteps validEmail mailerOk n (try_execute_task validEmail mailerOk pool).store)
      issue_id email := by
  cases hql : pool.issue_delivery_queue with
  | nil =>
    rw [dequeue_task] at hd
    rw [hql] at hd
    cases hd
  | cons row rest =>
    obtain ⟨rid, remail⟩ := row
    rw [dequeue_task] at hd
    rw [hql] at hd
    simp only [Option.some.injEq, Prod.mk.injEq] at hd
    obtain ⟨htxn, hii, hee⟩ := hd
    subst htxn
    rw [hii, hee] at hql
    have hstore : (try_execute_task validEmail mailerOk pool).store =
        delete_task ⟨pool⟩ issue_id email := by
      by_cases hv : validEmail email = true
      · cases hi : get_issue pool issue_id with
        | error e =>
          exfalso
          have houtcome : (try_execute_task validEmail mailerOk pool).outcome = .error e := by
            simp [try_execute_task, dequeue_task, hql, hv, hi]
          rw [houtcome] at hc
          exact Except.noConfusion hc
        | ok issue =>
          simp [try_execute_task, dequeue_task, hql, hv, hi]
      · have hv2 : validEmail email = false := by
          cases hb : validEmail email
          · rfl
          · exact absurd hb hv
        simp [try_execute_task, dequeue_task, hql, hv2]
    refine ⟨rfl, ⟨rest, by rw [hii, hee]⟩, hstore, ?_⟩
    intro n
    rw [hstore]
    exact pair_absent_workerSteps validEmail mailerOk n _ issue_id email
      (pair_removed_by_delete_task ⟨pool⟩ issue_id email)

/-- Witness for C7 on the one-row store with a succeeding mailer. -/
theorem claimed_row_never_reappears_witness :
    dequeue_task samplePool = some (⟨samplePool⟩, 1, "a@b.com") ∧
    (try_execute_task (fun _ => true) (fun _ _ _ _ => true) samplePool).outcome =
      .ok .taskCompleted ∧
    ((⟨samplePool⟩ : Txn) = ⟨samplePool⟩ ∧
    (∃ rest, samplePool.issue_delivery_queue = ⟨1, "a@b.com"⟩ :: rest) ∧
    (try_execute_task (fun _ => true) (fun _ _ _ _ => true) samplePool).store =
      delete_task ⟨samplePool⟩ 1 "a@b.com" ∧
    ∀ n, ¬ pairInQueue
      (workerSteps (fun _ => true) (fun _ _ _ _ => true) n
        (try_execute_task (fun _ => true) (fun _ _ _ _ => true) samplePool).store)
      1 "a@b.com") :=
  ⟨rfl, rfl,
    claimed_row_never_reappears (fun _ => true) (fun _ _ _ _ => true)
      samplePool ⟨samplePool⟩ 1 "a@b.com" rfl rfl⟩

/-- C10: a dequeued queue row with a valid stored address whose
`newsletter_issue_id` has no `newsletter_issues` row makes
`try_execute_task` return the `fetch_one` error with no mailer call; the
claiming transaction is dropped, so the store — including the queue row —
is untouched, and every later iteration re-claims the same head row and
fails the same way, leaving the store fixed. -/
theorem missing_issue_row_retries (validEmail : String → Bool)
    (mailerOk : MailerBehavior) (pool : Store) (row : QueueRow)
    (rest : List QueueRow)
    (hq : pool.issue_delivery_queue = row :: rest)
    (hv : validEmail row.subscriber_email = true)
    (hi : pool.newsletter_issues.find?
      (fun r => r.newsletter_issue_id == row.newsletter_issue_id) = none) :
    try_execute_task validEmail mailerOk pool =
      ⟨.error (.err "no rows returned by a query that expected to return at least one row"),
        pool, [], []⟩ ∧
    pairInQueue pool row.newsletter_issue_id row.subscriber_email ∧
    (∀ n, workerSteps validEmail mailerOk n pool = pool) ∧
    ∀ n, dequeue_task (workerSteps validEmail mailerOk n pool) =
      some (⟨pool⟩, row.newsletter_issue_id, row.subscriber_email) := by
  have hget : get_issue pool row.newsletter_issue_id =
      .error (.err "no rows returned by a query that expected to return at least one row") := by
    rw [get_issue, hi]
  have h1 : try_execute_task validEmail mailerOk pool =
      ⟨.error (.err "no rows returned by a query that expected to return at least one row"),
        pool, [], []⟩ := by
    simp [try_execute_task, dequeue_task, hq, hv, hget]
  have hfix : ∀ n, workerSteps validEmail mailerOk n pool = pool := by
    intro n
    induction n with
    | zero => rfl
    | succ n ih =>
      have hstep : workerStep validEmail mailerOk pool = pool := by
        rw [workerStep, h1]
      calc workerSteps validEmail mailerOk (n + 1) pool
          = workerSteps validEmail mailerOk n (workerStep validEmail mailerOk pool) := rfl
        _ = workerSteps validEmail mailerOk n pool := by rw [hstep]
        _ = pool := ih
  refine ⟨h1, ⟨row, ?_, rfl, rfl⟩, hfix, ?_⟩
  · rw [hq]
    exact List.mem_cons_self row rest
  · intro n
    rw [hfix n, dequeue_task, hq]

/-- Witness for C10 on the store whose queue row references a missing
issue. -/
theorem missing_issue_row_retries_witness :
    noIssuePool.issue_delivery_queue = [sampleQueueRow] ∧
    noIssuePool.newsletter_issues.find? (fun r => r.newsletter_issue_id == 1) = none ∧
    (try_execute_task (fun _ => true) (fun _ _ _ _ => true) noIssuePool =
      ⟨.error (.err "no rows returned by a query that expected to return at least one row"),
        noIssuePool, [], []⟩ ∧
    pairInQueue noIssuePool 1 "a@b.com" ∧
    (∀ n, workerSteps (fun _ => true) (fun _ _ _ _ => true) n noIssuePool = noIssuePool) ∧
    ∀ n, dequeue_task (workerSteps (fun _ => true) (fun _ _ _ _ => true) n noIssuePool) =
      some (⟨noIssuePool⟩, 1, "a@b.com")) :=
  ⟨rfl, rfl,
    missing_issue_row_retries (fun _ => true) (fun _ _ _ _ => true)
      noIssuePool sampleQueueRow [] rfl rfl rfl⟩

/-- C3 counterexample: on a store whose `(1, "key")` idempotency row
exists with no captured response, `try_processing` panics unwrapping the
NULL response columns inside `get_saved_response`; it does not return an
error value (nor a saved response or a transaction) to the caller. -/
theorem try_processing_pending_row_panics :
    isPanicked (try_processing pendingPool "key" 1) = true ∧
    isErrReturn (try_processing pendingPool "key" 1) = false :=
  ⟨rfl, rfl⟩

/-- C3 (amended): `try_processing` returns `StartProcessing` with the
transaction holding the placeholder insert exactly when no idempotency
record for `(user_id, key)` existed before the call; when the record
exists and `get_saved_response` reconstructs a captured response, that
saved response is returned; but when the record exists with its response
columns still NULL, the call panics on `unwrap` instead of returning an
error value — the explicit error return is reserved for the case where
no row is fetched at all. -/
theorem try_processing_characterization (pool : Store) (key : String)
    (user_id : Nat) :
    (findIdempotencyRow pool.idempotency user_id key = none →
      try_processing pool key user_id =
        .ok (.startProcessing ⟨insertPlaceholder pool user_id key⟩)) ∧
    (∀ txn, try_processing pool key user_id = .ok (.startProcessing txn) →
      findIdempotencyRow pool.idempotency user_id key = none ∧
      txn = ⟨insertPlaceholder pool user_id key⟩) ∧
    (∀ resp, get_saved_response pool key user_id = .ok (some resp) →
      try_processing pool key user_id = .ok (.returnSavedResponse resp)) ∧
    (∀ row, findIdempotencyRow pool.idempotency user_id key = some row →
      row.response_status_code = none →
      isPanicked (try_processing pool key user_id) = true ∧
      isErrReturn (try_processing pool key user_id) = false) := by
  refine ⟨?_, ?_, ?_, ?_⟩
  · intro h
    rw [try_processing, h]
  · intro txn h
    cases hf : findIdempotencyRow pool.idempotency user_id key with
    | none =>
      rw [try_processing, hf] at h
      simp only [Except.ok.injEq, NextAction.startProcessing.injEq] at h
      exact ⟨rfl, h.symm⟩
    | some row =>
      exfalso
      rw [try_processing, hf] at h
      cases hg : get_saved_response pool key user_id with
      | error e => rw [hg] at h; exact Except.noConfusion h
      | ok o =>
        cases o with
        | none => rw [hg] at h; exact Except.noConfusion h
        | some r =>
          rw [hg] at h
          simp only [Except.ok.injEq] at h
          exact NextAction.noConfusion h
  · intro resp hg
    cases hf : findIdempotencyRow pool.idempotency user_id key with
    | none =>
      exfalso
      rw [get_saved_response, hf] at hg
      simp at hg
    | some row =>
      rw [try_processing, hf, hg]
  · intro row hf hnone
    have hg : get_saved_response pool key user_id =
        .error (.rustPanic "called Option::unwrap on a None value") := by
      simp [get_saved_response, hf, hnone]
    have hp : try_processing pool key user_id =
        .error (.rustPanic "called Option::unwrap on a None value") := by
      rw [try_processing, hf, hg]
    rw [hp]
    exact ⟨rfl, rfl⟩

/-- Witness for C3 (amended) on the empty store: the fresh-key branch. -/
theorem try_processing_characterization_witness :
    findIdempotencyRow emptyPool.idempotency 1 "k" = none ∧
    try_processing emptyPool "k" 1 =
      .ok (.startProcessing ⟨insertPlaceholder emptyPool 1 "k"⟩) :=
  ⟨rfl, (try_processing_characterization emptyPool "k" 1).1 rfl⟩

/-- The `UPDATE` of `save_response` rewrites exactly the row the unique
key finds: looking the pair up afterwards yields that row with its
response columns filled in. -/
theorem findIdempotencyRow_update (rows : List IdempotencyRow)
    (user_id : Nat) (key : String) (sc : Int) (hs : List HeaderPairRecord)
    (body : Bytes) (row : IdempotencyRow)
    (h : findIdempotencyRow rows user_id key = some row) :
    findIdempotencyRow (updateIdempotencyRows rows user_id key sc hs body)
        user_id key =
      some { row with response_status_code := some sc,
                      response_headers := some hs,
                      response_body := some body } := by
  induction rows with
  | nil => exact absurd h (by simp [findIdempotencyRow])
  | cons a l ih =>
    by_cases hp : (a.user_id == user_id && a.idempotency_key == key) = true
    · have ha : a = row := by
        have h2 := h
        simp only [findIdempotencyRow, List.find?_cons, hp] at h2
        exact Option.some.inj h2
      subst ha
      simp only [findIdempotencyRow, updateIdempotencyRows, List.map_cons]
      simp [List.find?_cons, hp]
    · have hpf : (a.user_id == user_id && a.idempotency_key == key) = false := by
        cases hb : (a.user_id == user_id && a.idempotency_key == key)
        · rfl
        · exact absurd hb hp
      have hl : findIdempotencyRow l user_id key = some row := by
        have h2 := h
        simp only [findIdempotencyRow, List.find?_cons, hpf] at h2
        exact h2
      have hgoal := ih hl
      simp only [findIdempotencyRow, updateIdempotencyRows, List.map_cons] at hgoal ⊢
      simp only [hpf, if_false, List.find?_cons]
      simpa [hpf] using hgoal

/-- A `u16` below the sign bit is unchanged by the `as i16` cast. -/
theorem u16AsI16_small (s : Nat) (h : s < 32768) : u16AsI16 s = (s : Int) := by
  rw [u16AsI16, Nat.mod_eq_of_lt (lt_trans h (by norm_num)), if_pos h]

/-- C4: `save_response` stores status (as an `i16`), the full ordered
header list and the body bytes into the `(user_id, key)` record, commits,
and returns the response unchanged; `get_saved_response` — hence a
retried `try_processing`, whatever the body of the retried request —
reconstructs a response with exactly that status, those headers and that
body. -/
theorem save_response_roundtrip (txn : Txn) (key : String) (user_id : Nat)
    (resp : HttpResponse) (row : IdempotencyRow)
    (hrow : findIdempotencyRow txn.state.idempotency user_id key = some row)
    (hstatus : 100 ≤ resp.status ∧ resp.status < 1000) :
    save_response txn key user_id resp = .ok (resp, saveCommit txn key user_id resp) ∧
    get_saved_response (saveCommit txn key user_id resp) key user_id =
      .ok (some resp) ∧
    try_processing (saveCommit txn key user_id resp) key user_id =
      .ok (.returnSavedResponse resp) := by
  have hfind : findIdempotencyRow (saveCommit txn key user_id resp).idempotency
      user_id key =
      some { row with response_status_code := some (u16AsI16 resp.status),
                      response_headers := some resp.headers,
                      response_body := some resp.body } := by
    rw [saveCommit]
    exact findIdempotencyRow_update _ _ _ _ _ _ _ hrow
  have hsmall : resp.status < 32768 := lt_trans hstatus.2 (by norm_num)
  have hcast : u16AsI16 resp.status = (resp.status : Int) :=
    u16AsI16_small _ hsmall
  have hget : get_saved_response (saveCommit txn key user_id resp) key user_id =
      .ok (some resp) := by
    rw [get_saved_response, hfind]
    have htn : ((resp.status : Int)).toNat = resp.status := by omega
    simp only [hcast, i16TryIntoU16, statusCodeFromU16, htn]
    rw [if_neg (by omega : ¬((resp.status : Int) < 0))]
    simp [hstatus.1, hstatus.2]
  refine ⟨rfl, hget, ?_⟩
  rw [try_processing, hfind, hget]

/-- Witness for C4: the placeholder transaction and the handler redirect
response round-trip concretely. -/
theorem save_response_roundtrip_witness :
    findIdempotencyRow placeholderTxn.state.idempotency 7 "pub-key" =
      some ⟨7, "pub-key", none, none, none⟩ ∧
    (100 ≤ (see_other "/admin/newsletters").status ∧
      (see_other "/admin/newsletters").status < 1000) ∧
    get_saved_response
        (saveCommit placeholderTxn "pub-key" 7 (see_other "/admin/newsletters"))
        "pub-key" 7 =
      .ok (some (see_other "/admin/newsletters")) :=
  ⟨rfl, by decide,
    (save_response_roundtrip placeholderTxn "pub-key" 7
      (see_other "/admin/newsletters") ⟨7, "pub-key", none, none, none⟩
      rfl (by decide)).2.1⟩

/-- C1 (code-bug evidence): at a fresh idempotency key with a single
confirmed subscriber, `publish_newsletter` invokes the mailer inline for
that subscriber and commits no `newsletter_issues` row and no
`issue_delivery_queue` row before returning its redirect. -/
theorem publish_sends_inline_and_writes_no_queue :
    (publish_newsletter (fun _ => true) (fun _ _ _ _ => true)
      confirmedOnlyPool 1 sampleForm).sends = ["a@b.com"] ∧
    (publish_newsletter (fun _ => true) (fun _ _ _ _ => true)
      confirmedOnlyPool 1 sampleForm).store.newsletter_issues = [] ∧
    (publish_newsletter (fun _ => true) (fun _ _ _ _ => true)
      confirmedOnlyPool 1 sampleForm).store.issue_delivery_queue = [] ∧
    (publish_newsletter (fun _ => true) (fun _ _ _ _ => true)
      confirmedOnlyPool 1 sampleForm).response =
      .ok (see_other "/admin/newsletters") :=
  ⟨rfl, rfl, rfl, rfl⟩

/-- C2 (code-bug evidence): when the mailer call for the single confirmed
subscriber fails, `publish_newsletter` aborts with a 500-class error —
the delivery-time failure is surfaced to the publishing caller and the
transaction is dropped. -/
theorem publish_surfaces_mailer_error :
    (publish_newsletter (fun _ => true) (fun _ _ _ _ => false)
      confirmedOnlyPool 1 sampleForm).response =
      .error (.e500 ("Failed to send newsletter to " ++ "a@b.com")) ∧
    (publish_newsletter (fun _ => true) (fun _ _ _ _ => false)
      confirmedOnlyPool 1 sampleForm).store = confirmedOnlyPool ∧
    (publish_newsletter (fun _ => true) (fun _ _ _ _ => false)
      confirmedOnlyPool 1 sampleForm).sends = ["a@b.com"] :=
  ⟨rfl, rfl, rfl⟩

end Zero2Prod
